import Mathlib

/-
A shallow embedding of the TCP connection manager (package tcp of
github.com/ardanlabs/kit): the accept loop, the client registry, the
dual worker pools and the start/stop lifecycle, translated from the Go
source into a sequential state model.  Goroutine interactions are
rendered as explicit state transitions: each public operation is a
function from the manager state to a new state together with the
externally observable outcome (error returned, sockets closed, events
reported, work submitted, actions performed in order).  Machine times
(time.Time, time.Duration) are modelled as natural numbers; the strict
time.Time.After comparison becomes a strict inequality on Nat.
-/

/-- A raw accepted socket.  Only the remote address (the registry key,
conn.RemoteAddr().String() in the source) and an identity tag are
relevant to the model. -/
structure Conn where
  remoteAddr : String
  id : Nat
deriving DecidableEq, Repr

/-- Modelled from the spec: the Client Connection type (its defining file
is not under src/; only its uses in the manager are).  Per the spec data
model it owns the accepted socket and a context string; the bound
reader/writer and the read-pipeline task handle play no role in the
claims about the manager and are omitted. -/
structure Client where
  conn : Conn
  cntx : String
deriving DecidableEq, Repr

/-- Modelled from the spec: the external bounded worker pool
(github.com/ardanlabs/kit/pool, outside this repository).  Per the spec
contract it accepts submitted work items and can be shut down; the model
records the queue of submitted items and whether Shutdown was invoked. -/
structure Pool (α : Type) where
  submitted : List α
  isShutdown : Bool
deriving DecidableEq, Repr

/-- The empty, running pool produced by pool.New. -/
def freshPool {α : Type} : Pool α :=
  { submitted := [], isShutdown := false }

/-- The Response message, translated from src/tcp/handlers.go (type
Response, lines 65-74): the exported target address, payload bytes,
length and Complete callback, plus the unexported fields tcp, client
and traceID that Do sets at submission time.  The *net.TCPAddr key is
rendered as its string form (the source only ever uses
r.TCPAddr.String()), the []byte payload as a list of bytes, and the
Complete callback — a function value — by a flag recording whether it
is non-nil.  The *TCP back-reference is rendered as the manager's name
and the *client back-reference as the registered Client, both nil
(none) until Do attaches them; traceID is a plain string whose zero
value is empty, as in the source. -/
structure Response where
  TCPAddr : String
  Data : List Nat
  Length : Nat
  hasComplete : Bool
  tcp : Option String
  client : Option Client
  traceID : String
deriving DecidableEq, Repr

/-- Modelled from the spec: the Config consumed at construction (its
defining file is not under src/).  Handler references are modelled by
presence flags (non-nil or nil); the rate limiter, a function returning
a duration, is modelled by the constant duration it returns. -/
structure Config where
  NetType : String
  Addr : String
  ConnHandler : Bool
  ReqHandler : Bool
  RespHandler : Bool
  RecvMinPoolSize : Int
  RecvMaxPoolSize : Int
  SendMinPoolSize : Int
  SendMaxPoolSize : Int
  RecvPool : Option (Pool Unit)
  SendPool : Option (Pool Response)
  RateLimit : Option Nat
deriving DecidableEq, Repr

/-- The connection-manager state (struct TCP in the source).  The client
registry is an association list from remote-address string to Client;
acceptTasks is the sync.WaitGroup counter tracking the live accept
goroutine; the two atomic flags and the single-writer timestamp are
plain fields of the sequential state. -/
structure TCP where
  Name : String
  netType : String
  ipAddress : String
  port : Nat
  listener : Option Nat
  clients : List (String × Client)
  recv : Pool Unit
  send : Pool Response
  userPools : Bool
  acceptTasks : Nat
  dropConns : Bool
  shuttingDown : Bool
  lastAcceptedConnection : Nat
  RateLimit : Option Nat
deriving DecidableEq, Repr

/-- Registry lookup: t.clients[ipAddress] on the Go map, read off the
association list. -/
def lookupClient : List (String × Client) → String → Option Client
  | [], _ => none
  | p :: rest, a => if p.1 == a then some p.2 else lookupClient rest a

/-- The registry invariant: no two entries share a remote-address key
(automatic for a Go map, a property to maintain for the list model). -/
def NodupKeys (reg : List (String × Client)) : Prop :=
  (reg.map Prod.fst).Nodup

instance (reg : List (String × Client)) : Decidable (NodupKeys reg) := by
  unfold NodupKeys
  infer_instance

/-- Modelled from the spec: Client Connection creation (newClient's file
is not under src/): binds the socket and records the context string;
registry insertion and pipeline start are performed by the caller. -/
def newClient (cntx : String) (conn : Conn) : Client :=
  { conn := conn, cntx := cntx }

/-- Outcome of the manager's registration step. -/
structure JoinResult where
  t : TCP
  registered : Bool
  closedConn : Bool
  reported : Bool
deriving DecidableEq, Repr

/-- join (t *TCP) join(traceID, conn): if the remote address is already
registered, report the duplicate, close the new socket and return
without registering; otherwise insert a new Client under the address. -/
def TCP.join (t : TCP) (traceID : String) (conn : Conn) : JoinResult :=
  let ipAddress := conn.remoteAddr
  let cntx := traceID ++ "-" ++ ipAddress
  match lookupClient t.clients ipAddress with
  | some _ =>
      { t := t, registered := false, closedConn := true, reported := true }
  | none =>
      { t := { t with clients := (ipAddress, newClient cntx conn) :: t.clients },
        registered := true, closedConn := false, reported := false }

/-- remove (t *TCP) remove(traceID, conn): a missing address is reported
and the operation is a no-op (the socket is not closed); a present
address is deleted from the registry and the socket is closed. -/
structure RemoveResult where
  t : TCP
  reported : Bool
  closedConn : Bool
deriving DecidableEq, Repr

def TCP.remove (t : TCP) (traceID : String) (conn : Conn) : RemoveResult :=
  let ipAddress := conn.remoteAddr
  match lookupClient t.clients ipAddress with
  | none =>
      { t := t, reported := true, closedConn := false }
  | some _ =>
      { t := { t with clients := t.clients.filter (fun p => !(p.1 == ipAddress)) },
        reported := false, closedConn := true }

/-- Outcome of one successful accept in the accept loop: the post state,
whether the new socket was closed, whether a Client was registered. -/
structure AcceptResult where
  t : TCP
  closedConn : Bool
  registered : Bool
deriving DecidableEq, Repr

/-- One successful accept, lines 212-236 of the accept loop: the
drop-flag check, then the rate-limit check (close and continue when
lastAcceptedConnection + RateLimit() is strictly after now, otherwise
record now as the accept time), then registration via join. -/
def TCP.acceptConn (t : TCP) (traceID : String) (now : Nat) (conn : Conn) : AcceptResult :=
  if t.dropConns then
    { t := t, closedConn := true, registered := false }
  else
    match t.RateLimit with
    | some d =>
        if t.lastAcceptedConnection + d > now then
          { t := t, closedConn := true, registered := false }
        else
          let t1 := { t with lastAcceptedConnection := now }
          let j := t1.join traceID conn
          { t := j.t, closedConn := j.closedConn, registered := j.registered }
    | none =>
        let j := t.join traceID conn
        { t := j.t, closedConn := j.closedConn, registered := j.registered }

/-- A whole sequence of accepted connections, each with its arrival
time, folded through the accept loop. -/
def TCP.acceptMany (t : TCP) (traceID : String) (events : List (Nat × Conn)) : TCP :=
  match events with
  | [] => t
  | e :: rest => ((t.acceptConn traceID e.1 e.2).t).acceptMany traceID rest

/-- An error returned by listener.Accept, as the accept loop classifies
it: whether it implements the net package's interface exposing a
Temporary() method, and what that method returns. -/
structure NetError where
  hasTemporary : Bool
  temporary : Bool
deriving DecidableEq, Repr

/-- The accept loop's permanence test: the error exposes Temporary() and
reports itself non-recoverable. -/
def NetError.permanent (e : NetError) : Bool :=
  e.hasTemporary && !e.temporary

/-- Observable outcome of the accept loop's error branch, lines 174-210:
the listener reference afterwards, whether the listener was closed,
whether the error was reported via the event callback, whether the
readiness signal was re-armed (waitStart.Add(1)), and whether the loop
terminated (break) or retries (continue). -/
structure AcceptErrorResult where
  listener : Option Nat
  closedListener : Bool
  reported : Bool
  rearmed : Bool
  terminated : Bool
deriving DecidableEq, Repr

/-- The accept loop's handling of an Accept error: under shutdown, clear
the listener reference and break; otherwise report the error, and when
it is permanent close and clear the listener and re-arm the readiness
signal so the next iteration rebinds, else retry with the listener in
place. -/
def acceptError (listener : Option Nat) (shuttingDown : Bool) (e : NetError) :
    AcceptErrorResult :=
  if shuttingDown then
    { listener := none, closedListener := false, reported := false,
      rearmed := false, terminated := true }
  else if e.permanent then
    { listener := none, closedListener := true, reported := true,
      rearmed := true, terminated := false }
  else
    { listener := listener, closedListener := false, reported := true,
      rearmed := false, terminated := false }

/-- The head of each accept-loop iteration, lines 153-171: bind a fresh
listener when none is held, keep the current one otherwise; the Bool
records whether a bind happened. -/
def bindIfNeeded (listener : Option Nat) (fresh : Nat) : Option Nat × Bool :=
  match listener with
  | some l => (some l, false)
  | none => (some fresh, true)

/-- What Start delivers to its caller: an error return with the state
unchanged, a success return once the accept task has bound the listener,
or no return at all because the accept task panicked on a bind failure
(process-terminating in the source). -/
inductive StartResult where
  | errReturn (msg : String) (t : TCP)
  | ok (t : TCP)
  | panicked
deriving DecidableEq, Repr

/-- Whether the Start call delivers a value (success or error) back to
its caller; a panicked accept task terminates the process instead. -/
def StartResult.returnsToCaller : StartResult → Bool
  | .panicked => false
  | _ => true

/-- Start (t *TCP) Start(traceID): with a listener already held, return
an error before wg.Add, spawning nothing; otherwise spawn the accept
task and block on the readiness signal, which the task raises after
net.ListenTCP succeeds — the bind outcome is the parameter.  A bind
failure makes the accept task panic, so Start never returns. -/
def TCP.Start (t : TCP) (traceID : String) (bind : Except String Nat) : StartResult :=
  if t.listener.isSome then
    .errReturn "This TCP has already been started" t
  else
    match bind with
    | .ok l => .ok { t with listener := some l, acceptTasks := t.acceptTasks + 1 }
    | .error _ => .panicked

/-- The externally observable steps Stop performs, in order.  dropClient
records that the client's socket was closed and its read pipeline was
waited on until it exited (client.drop); waitAccept records wg.Wait,
during which the accept task clears the listener reference, breaks and
exits. -/
inductive StopAction where
  | setShuttingDown
  | closeListener
  | shutdownRecv
  | shutdownSend
  | snapshot (keys : List String)
  | dropClient (a : String)
  | waitAccept
deriving DecidableEq, Repr

/-- Stop (t *TCP) Stop(traceID): with no listener held, return an error
and change nothing.  Otherwise set the shutting-down flag, close the
listener, shut both pools down when they are manager-owned, snapshot the
registry under its lock, drop every snapshotted client (each drop waits
for that client's read pipeline to exit, and the exiting pipeline
removes the client and closes its socket), then wait for the accept task
to exit (which clears the listener reference on its way out). -/
def TCP.Stop (t : TCP) : TCP × Except String (List StopAction) :=
  match t.listener with
  | none => (t, Except.error "This TCP has already been stopped")
  | some _ =>
      let t1 := { t with shuttingDown := true }
      let poolActs : List StopAction :=
        if t1.userPools then []
        else [StopAction.shutdownRecv, StopAction.shutdownSend]
      let t2 :=
        if t1.userPools then t1
        else { t1 with recv := { t1.recv with isShutdown := true },
                       send := { t1.send with isShutdown := true } }
      let keys := t2.clients.map Prod.fst
      let t3 := { t2 with clients := [], listener := none,
                          acceptTasks := t2.acceptTasks - 1 }
      (t3, Except.ok
        ([StopAction.setShuttingDown, StopAction.closeListener] ++ poolActs ++
         [StopAction.snapshot keys] ++ keys.map StopAction.dropClient ++
         [StopAction.waitAccept]))

/-- Do (t *TCP) Do(traceID, r): look the target address up in the
registry; when absent return a not-connected error with nothing
submitted; when present set the response's unexported manager, client
and trace-identifier fields and submit it to the send pool, returning
success without waiting for the write (the item is only queued). -/
def TCP.Do (t : TCP) (traceID : String) (r : Response) : TCP × Except String Unit :=
  match lookupClient t.clients r.TCPAddr with
  | none =>
      (t, Except.error ("IP Address disconnected [ " ++ r.TCPAddr ++ " ]"))
  | some c =>
      let r2 := { r with tcp := some t.Name, client := some c, traceID := traceID }
      ({ t with send := { t.send with submitted := t.send.submitted ++ [r2] } },
       Except.ok ())

/-- DropConnections (t *TCP) DropConnections(traceID, drop): store the
flag atomically; nothing else is touched. -/
def TCP.DropConnections (t : TCP) (drop : Bool) : TCP :=
  if drop then { t with dropConns := true }
  else { t with dropConns := false }

/-- Modelled from the spec: Config.Validate (its defining file is not
under src/; only its caller New is).  Spec section 7 enumerates the
configuration errors — invalid network type, missing handler, invalid
pool sizing, inconsistent pool-ownership configuration — and section 6
has caller pools supplied both-or-neither (supplying both implies the
manager does not own pool shutdown), matching New's comment that
validation lets it check only one of the two pool options. -/
def Config.Validate (cfg : Config) : Except String Unit :=
  if cfg.NetType ≠ "tcp" ∧ cfg.NetType ≠ "tcp4" ∧ cfg.NetType ≠ "tcp6" then
    Except.error "Invalid NetType Configuration"
  else if cfg.ConnHandler = false then
    Except.error "Invalid Connection Handler Configuration"
  else if cfg.ReqHandler = false then
    Except.error "Invalid Request Handler Configuration"
  else if cfg.RespHandler = false then
    Except.error "Invalid Response Handler Configuration"
  else if cfg.RecvPool.isSome ≠ cfg.SendPool.isSome then
    Except.error "Invalid Pool Configuration"
  else if cfg.RecvPool.isNone ∧
      ¬(0 ≤ cfg.RecvMinPoolSize ∧ 0 < cfg.RecvMaxPoolSize ∧
        cfg.RecvMinPoolSize ≤ cfg.RecvMaxPoolSize ∧
        0 ≤ cfg.SendMinPoolSize ∧ 0 < cfg.SendMaxPoolSize ∧
        cfg.SendMinPoolSize ≤ cfg.SendMaxPoolSize) then
    Except.error "Invalid Pool Configuration"
  else
    Except.ok ()

/-- New(traceID, name, cfg): validate the configuration, adopt the
caller-supplied pools or create owned ones, and record userPools from
cfg.RecvPool alone (validation guarantees checking one of the two pool
options suffices).  Address resolution is modelled as copying the
configured address; a resolution failure would reject the configuration
before any of the behaviour the claims are about. -/
def New (traceID : String) (name : String) (cfg : Config) : Except String TCP :=
  match cfg.Validate with
  | Except.error e => Except.error e
  | Except.ok _ =>
      let recv : Pool Unit :=
        match cfg.RecvPool with
        | some p => p
        | none => freshPool
      let send : Pool Response :=
        match cfg.SendPool with
        | some p => p
        | none => freshPool
      let userPools := cfg.RecvPool.isSome
      Except.ok
        { Name := name, netType := cfg.NetType, ipAddress := cfg.Addr, port := 0,
          listener := none, clients := [], recv := recv, send := send,
          userPools := userPools, acceptTasks := 0, dropConns := false,
          shuttingDown := false, lastAcceptedConnection := 0,
          RateLimit := cfg.RateLimit }

/-! ### Registry lemmas -/

theorem lookupClient_eq_none_iff (reg : List (String × Client)) (a : String) :
    lookupClient reg a = none ↔ a ∉ reg.map Prod.fst := by
  induction reg with
  | nil => simp [lookupClient]
  | cons p rest ih =>
      by_cases h : p.1 = a
      · simp [lookupClient, h]
      · simp only [lookupClient, beq_iff_eq, h, if_false, List.map_cons, List.mem_cons, ih]
        constructor
        · intro hn hc
          rcases hc with hc | hc
          · exact h hc.symm
          · exact hn hc
        · intro hn hc
          exact hn (Or.inr hc)

theorem lookupClient_filter_self (reg : List (String × Client)) (a : String) :
    lookupClient (reg.filter (fun p => !(p.1 == a))) a = none := by
  rw [lookupClient_eq_none_iff]
  intro hmem
  rcases List.mem_map.mp hmem with ⟨p, hp, hpa⟩
  have := (List.mem_filter.mp hp).2
  simp [hpa] at this

theorem lookupClient_filter_ne (reg : List (String × Client)) (a b : String)
    (hne : ¬ b = a) :
    lookupClient (reg.filter (fun p => !(p.1 == a))) b = lookupClient reg b := by
  have hab : ¬ a = b := fun hc => hne hc.symm
  induction reg with
  | nil => rfl
  | cons p rest ih =>
      by_cases hpa : p.1 = a
      · have hpb : ¬ p.1 = b := by rw [hpa]; exact hab
        simp [List.filter_cons, hpa, lookupClient, hpb, hab, hne, ih]
      · by_cases hpb : p.1 = b
        · simp [List.filter_cons, hpa, lookupClient, hpb, hab, hne]
        · simp [List.filter_cons, hpa, lookupClient, hpb, hab, hne, ih]

theorem join_preserves_nodupKeys (t : TCP) (traceID : String) (conn : Conn)
    (h : NodupKeys t.clients) : NodupKeys (t.join traceID conn).t.clients := by
  cases hl : lookupClient t.clients conn.remoteAddr with
  | some cl =>
      have : (t.join traceID conn).t = t := by simp [TCP.join, hl]
      rw [this]; exact h
  | none =>
      have : (t.join traceID conn).t.clients =
          (conn.remoteAddr,
            newClient (traceID ++ "-" ++ conn.remoteAddr) conn) :: t.clients := by
        simp [TCP.join, hl]
      rw [this]
      simp only [NodupKeys, List.map_cons]
      exact List.nodup_cons.mpr ⟨(lookupClient_eq_none_iff _ _).mp hl, h⟩

theorem acceptConn_preserves_nodupKeys (t : TCP) (traceID : String) (now : Nat)
    (conn : Conn) (h : NodupKeys t.clients) :
    NodupKeys (t.acceptConn traceID now conn).t.clients := by
  have hjoin : ∀ t' : TCP, t'.clients = t.clients →
      NodupKeys (t'.join traceID conn).t.clients := by
    intro t' ht'
    exact join_preserves_nodupKeys t' traceID conn (by rw [ht']; exact h)
  simp only [TCP.acceptConn]
  split
  · exact h
  · split
    · split
      · exact h
      · exact hjoin _ rfl
    · exact hjoin _ rfl

theorem acceptMany_preserves_nodupKeys (traceID : String)
    (events : List (Nat × Conn)) :
    ∀ t : TCP, NodupKeys t.clients →
      NodupKeys (t.acceptMany traceID events).clients := by
  induction events with
  | nil => intro t h; exact h
  | cons e rest ih =>
      intro t h
      exact ih _ (acceptConn_preserves_nodupKeys t traceID e.1 e.2 h)

/-! ### Concrete states used to instantiate the theorems -/

def conn0 : Conn := { remoteAddr := "10.0.0.5:5555", id := 0 }

def conn1 : Conn := { remoteAddr := "10.0.0.6:6666", id := 1 }

def client0 : Client := newClient "tr-10.0.0.5:5555" conn0

def tcpBase : TCP :=
  { Name := "mgr", netType := "tcp", ipAddress := "127.0.0.1", port := 6000,
    listener := none, clients := [], recv := freshPool, send := freshPool,
    userPools := false, acceptTasks := 0, dropConns := false,
    shuttingDown := false, lastAcceptedConnection := 0, RateLimit := none }

def tcpOne : TCP := { tcpBase with clients := [(conn0.remoteAddr, client0)] }

/-! ### Claims -/

/-- Claim C2: for every sequence of accepted connections the registry
never holds two Client Connections under the same remote-address key,
and a join for an already-registered address closes the new socket,
registers nothing, and leaves the originally registered Client in
place. -/
theorem spec_C2_registry_unique :
    (∀ (t : TCP) (traceID : String) (events : List (Nat × Conn)),
        NodupKeys t.clients →
        NodupKeys (t.acceptMany traceID events).clients) ∧
    (∀ (t : TCP) (traceID : String) (conn : Conn) (c : Client),
        lookupClient t.clients conn.remoteAddr = some c →
        t.join traceID conn =
          { t := t, registered := false, closedConn := true, reported := true } ∧
        lookupClient (t.join traceID conn).t.clients conn.remoteAddr = some c) := by
  constructor
  · intro t traceID events h
    exact acceptMany_preserves_nodupKeys traceID events t h
  · intro t traceID conn c hdup
    have h1 : t.join traceID conn =
        { t := t, registered := false, closedConn := true, reported := true } := by
      simp [TCP.join, hdup]
    exact ⟨h1, by rw [h1]; exact hdup⟩

/-- Witness for C2 at a one-client registry and a duplicate accept. -/
theorem spec_C2_registry_unique_witness :
    NodupKeys (tcpOne.acceptMany "tr" [(0, conn0), (1, conn1)]).clients ∧
    tcpOne.join "tr" conn0 =
      { t := tcpOne, registered := false, closedConn := true, reported := true } := by
  constructor
  · exact spec_C2_registry_unique.1 tcpOne "tr" [(0, conn0), (1, conn1)] (by decide)
  · exact (spec_C2_registry_unique.2 tcpOne "tr" conn0 client0 (by decide)).1

/-- Claim C7: remove for an unregistered address reports the conflict
and is otherwise a no-op (registry unchanged, socket not closed); for a
registered address it deletes the entry and closes the socket. -/
theorem spec_C7_remove (t : TCP) (traceID : String) (conn : Conn) :
    (lookupClient t.clients conn.remoteAddr = none →
        t.remove traceID conn = { t := t, reported := true, closedConn := false }) ∧
    (∀ c, lookupClient t.clients conn.remoteAddr = some c →
        (t.remove traceID conn).reported = false ∧
        (t.remove traceID conn).closedConn = true ∧
        lookupClient (t.remove traceID conn).t.clients conn.remoteAddr = none ∧
        (∀ b, ¬ b = conn.remoteAddr →
            lookupClient (t.remove traceID conn).t.clients b =
              lookupClient t.clients b)) := by
  constructor
  · intro hnone
    simp [TCP.remove, hnone]
  · intro c hsome
    have hr : t.remove traceID conn =
        { t := { t with
                 clients := t.clients.filter (fun p => !(p.1 == conn.remoteAddr)) },
          reported := false, closedConn := true } := by
      simp [TCP.remove, hsome]
    rw [hr]
    refine ⟨rfl, rfl, ?_, ?_⟩
    · exact lookupClient_filter_self t.clients conn.remoteAddr
    · intro b hb
      exact lookupClient_filter_ne t.clients conn.remoteAddr b hb

/-- Witness for C7: a missing-address remove on the empty registry and a
present-address remove on a one-client registry. -/
theorem spec_C7_remove_witness :
    tcpBase.remove "tr" conn0 =
      { t := tcpBase, reported := true, closedConn := false } ∧
    (tcpOne.remove "tr" conn0).closedConn = true ∧
    lookupClient (tcpOne.remove "tr" conn0).t.clients conn0.remoteAddr = none := by
  refine ⟨(spec_C7_remove tcpBase "tr" conn0).1 (by decide), ?_, ?_⟩
  · exact ((spec_C7_remove tcpOne "tr" conn0).2 client0 (by decide)).2.1
  · exact ((spec_C7_remove tcpOne "tr" conn0).2 client0 (by decide)).2.2.1

def resp0 : Response :=
  { TCPAddr := "10.0.0.5:5555", Data := [80, 79, 78, 71], Length := 4,
    hasComplete := false, tcp := none, client := none, traceID := "" }

/-- Claim C4: Do with a target address absent from the registry returns
the not-connected error and performs no submission (the whole state, in
particular the send pool's queue, is unchanged); with the address
present it attaches the manager, client and trace-identifier context to
the response, submits it to the send pool and returns success — the
write itself has not happened, the item is only queued. -/
theorem spec_C4_do (t : TCP) (traceID : String) (r : Response) :
    (lookupClient t.clients r.TCPAddr = none →
        t.Do traceID r =
          (t, Except.error ("IP Address disconnected [ " ++ r.TCPAddr ++ " ]")) ∧
        (t.Do traceID r).1.send.submitted = t.send.submitted) ∧
    (∀ c, lookupClient t.clients r.TCPAddr = some c →
        (t.Do traceID r).2 = Except.ok () ∧
        (t.Do traceID r).1 =
          { t with send := { t.send with submitted := t.send.submitted ++
              [{ r with tcp := some t.Name, client := some c,
                        traceID := traceID }] } }) := by
  constructor
  · intro hnone
    constructor
    · simp [TCP.Do, hnone]
    · simp [TCP.Do, hnone]
  · intro c hsome
    constructor
    · simp [TCP.Do, hsome]
    · simp [TCP.Do, hsome]

/-- Witness for C4: an empty registry rejects the response, a registry
holding the target address accepts it. -/
theorem spec_C4_do_witness :
    tcpBase.Do "tr" resp0 =
      (tcpBase, Except.error ("IP Address disconnected [ " ++ resp0.TCPAddr ++ " ]")) ∧
    (tcpOne.Do "tr" resp0).2 = Except.ok () := by
  constructor
  · exact ((spec_C4_do tcpBase "tr" resp0).1 (by decide)).1
  · exact ((spec_C4_do tcpOne "tr" resp0).2 client0 (by decide)).1

/-- Claim C9: while the drop-flag is set an accepted connection is
closed, never registered, and the whole state (in particular the
registry) is unchanged; DropConnections only writes the flag, so it
cannot affect already-registered connections; after clearing the flag a
fresh connection registers normally. -/
theorem spec_C9_drop_flag (t : TCP) (traceID : String) (now : Nat) (conn : Conn) :
    (t.dropConns = true →
        t.acceptConn traceID now conn =
          { t := t, closedConn := true, registered := false }) ∧
    (t.DropConnections true = { t with dropConns := true } ∧
     t.DropConnections false = { t with dropConns := false } ∧
     (t.DropConnections true).clients = t.clients ∧
     (t.DropConnections false).clients = t.clients) ∧
    (t.RateLimit = none → lookupClient t.clients conn.remoteAddr = none →
        ((t.DropConnections false).acceptConn traceID now conn).registered = true) := by
  refine ⟨?_, ⟨?_, ?_, ?_, ?_⟩, ?_⟩
  · intro hd
    simp [TCP.acceptConn, hd]
  · simp [TCP.DropConnections]
  · simp [TCP.DropConnections]
  · simp [TCP.DropConnections]
  · simp [TCP.DropConnections]
  · intro hrl hfresh
    simp [TCP.DropConnections, TCP.acceptConn, hrl, TCP.join, hfresh]

/-- Witness for C9: with the flag set the accept is dropped with no
registry growth; after clearing, the same connection registers. -/
theorem spec_C9_drop_flag_witness :
    ({ tcpBase with dropConns := true }.acceptConn "tr" 0 conn0) =
      { t := { tcpBase with dropConns := true }, closedConn := true,
        registered := false } ∧
    ((tcpBase.DropConnections false).acceptConn "tr" 0 conn0).registered = true := by
  constructor
  · exact (spec_C9_drop_flag { tcpBase with dropConns := true } "tr" 0 conn0).1 rfl
  · exact (spec_C9_drop_flag tcpBase "tr" 0 conn0).2.2 rfl (by decide)

/-- Claim C5: on an Accept error with the shutting-down flag set the
accept task clears the held listener reference and terminates; with the
flag clear the error is reported, and a permanent error (the net layer
exposes Temporary() returning false) closes and clears the listener and
re-arms the readiness signal so the next iteration rebinds, while a
transient error leaves the listener in place and the loop retries. -/
theorem spec_C5_accept_error (l : Option Nat) (sd : Bool) (e : NetError) (fresh : Nat) :
    (sd = true →
        acceptError l sd e =
          { listener := none, closedListener := false, reported := false,
            rearmed := false, terminated := true }) ∧
    (sd = false → e.permanent = true →
        acceptError l sd e =
          { listener := none, closedListener := true, reported := true,
            rearmed := true, terminated := false } ∧
        bindIfNeeded (acceptError l sd e).listener fresh = (some fresh, true)) ∧
    (sd = false → e.permanent = false →
        acceptError l sd e =
          { listener := l, closedListener := false, reported := true,
            rearmed := false, terminated := false }) := by
  refine ⟨?_, ?_, ?_⟩
  · intro h1
    simp [acceptError, h1]
  · intro h1 h2
    constructor
    · simp [acceptError, h1, h2]
    · simp [acceptError, bindIfNeeded, h1, h2]
  · intro h1 h2
    simp [acceptError, h1, h2]

/-- Witness for C5: shutdown break, a permanent error (Temporary() =
false) with rebind, and a transient error (no Temporary() method). -/
theorem spec_C5_accept_error_witness :
    acceptError (some 7) true { hasTemporary := false, temporary := false } =
      { listener := none, closedListener := false, reported := false,
        rearmed := false, terminated := true } ∧
    acceptError (some 7) false { hasTemporary := true, temporary := false } =
      { listener := none, closedListener := true, reported := true,
        rearmed := true, terminated := false } ∧
    acceptError (some 7) false { hasTemporary := false, temporary := false } =
      { listener := some 7, closedListener := false, reported := true,
        rearmed := false, terminated := false } := by
  refine ⟨?_, ?_, ?_⟩
  · exact (spec_C5_accept_error (some 7) true
      { hasTemporary := false, temporary := false } 0).1 rfl
  · exact ((spec_C5_accept_error (some 7) false
      { hasTemporary := true, temporary := false } 0).2.1 rfl rfl).1
  · exact (spec_C5_accept_error (some 7) false
      { hasTemporary := false, temporary := false } 0).2.2 rfl rfl

/-- Claim C1 (amended): Start on an already-started manager returns an
error with the state unchanged — in particular no second accept task is
spawned (the task count is unchanged); otherwise Start spawns the accept
task and blocks until it has bound the listener, returning success once
bound; a bind failure makes the accept task panic, terminating the
process, so Start never returns it to the caller. -/
theorem spec_C1_start (t : TCP) (traceID : String) (bind : Except String Nat) :
    (t.listener.isSome = true →
        t.Start traceID bind =
          StartResult.errReturn ("This TCP has already been started") t) ∧
    (t.listener = none → ∀ l, bind = Except.ok l →
        t.Start traceID bind =
          StartResult.ok { t with listener := some l,
                                  acceptTasks := t.acceptTasks + 1 }) ∧
    (t.listener = none → ∀ e, bind = Except.error e →
        t.Start traceID bind = StartResult.panicked ∧
        (t.Start traceID bind).returnsToCaller = false) := by
  refine ⟨?_, ?_, ?_⟩
  · intro h
    simp [TCP.Start, h]
  · intro h l hb
    simp [TCP.Start, h, hb]
  · intro h e hb
    constructor
    · simp [TCP.Start, h, hb]
    · simp [TCP.Start, StartResult.returnsToCaller, h, hb]

/-- Witness for C1: a second Start errors without a new task; a first
Start binds; a failing bind panics. -/
theorem spec_C1_start_witness :
    ({ tcpBase with listener := some 3 }.Start "tr" (Except.ok 4)) =
      StartResult.errReturn ("This TCP has already been started")
        { tcpBase with listener := some 3 } ∧
    tcpBase.Start "tr" (Except.ok 4) =
      StartResult.ok { tcpBase with listener := some 4, acceptTasks := 1 } ∧
    tcpBase.Start "tr" (Except.error ("EADDRINUSE")) = StartResult.panicked := by
  refine ⟨?_, ?_, ?_⟩
  · exact (spec_C1_start { tcpBase with listener := some 3 } "tr" (Except.ok 4)).1 rfl
  · exact (spec_C1_start tcpBase "tr" (Except.ok 4)).2.1 rfl 4 rfl
  · exact ((spec_C1_start tcpBase "tr" (Except.error ("EADDRINUSE"))).2.2 rfl
      "EADDRINUSE" rfl).1

/-- Counterexample to C1 as stated: a bind failure is not propagated to
the caller — the accept task panics (process-terminating) and Start
never returns a value. -/
theorem spec_C1_bind_counterexample :
    tcpBase.Start "tr" (Except.error ("EADDRINUSE")) = StartResult.panicked ∧
    StartResult.returnsToCaller
      (tcpBase.Start "tr" (Except.error ("EADDRINUSE"))) = false := by
  constructor
  · rfl
  · rfl

/-- Claim C8: Stop on a manager holding no listener (never started, or
already stopped) returns an error and leaves the state untouched — the
shutting-down flag stays clear, no listener is closed, no pool is shut
down and the registry is unchanged; and after any successful Stop the
listener is cleared, so a second Stop errors the same way. -/
theorem spec_C8_stop_misuse (t t0 t1 : TCP) (l : Nat) (acts : List StopAction) :
    (t.listener = none →
        t.Stop = (t, Except.error ("This TCP has already been stopped"))) ∧
    (t0.listener = some l → t0.Stop = (t1, Except.ok acts) →
        t1.Stop = (t1, Except.error ("This TCP has already been stopped"))) := by
  constructor
  · intro h
    simp [TCP.Stop, h]
  · intro h0 hstop
    have h1 : (t0.Stop).1.listener = none := by
      simp [TCP.Stop, h0]
    rw [hstop] at h1
    have h2 : t1.listener = none := h1
    simp [TCP.Stop, h2]

/-! ### Stop decomposition lemmas -/

theorem stop_snd (t : TCP) (l : Nat) (hl : t.listener = some l) :
    (t.Stop).2 = Except.ok
      ([StopAction.setShuttingDown, StopAction.closeListener] ++
       (if t.userPools then [] else
         [StopAction.shutdownRecv, StopAction.shutdownSend]) ++
       [StopAction.snapshot (t.clients.map Prod.fst)] ++
       (t.clients.map Prod.fst).map StopAction.dropClient ++
       [StopAction.waitAccept]) := by
  by_cases hu : t.userPools = true
  · simp [TCP.Stop, hl, hu]
  · simp [TCP.Stop, hl, hu]

theorem stop_fst (t : TCP) (l : Nat) (hl : t.listener = some l) :
    (t.Stop).1 =
      { t with shuttingDown := true, listener := none, clients := [],
               acceptTasks := t.acceptTasks - 1,
               recv := if t.userPools then t.recv
                       else { t.recv with isShutdown := true },
               send := if t.userPools then t.send
                       else { t.send with isShutdown := true } } := by
  by_cases hu : t.userPools = true
  · simp [TCP.Stop, hl, hu]
  · simp [TCP.Stop, hl, hu]

/-- Claim C3: once Stop passes its listener check it performs, in this
order: set the shutting-down flag, close the listener, shut both pools
down exactly when they are manager-owned (not user-supplied), snapshot
the registry, drop every snapshotted client — each drop closing the
socket and waiting for that client's read pipeline to exit — and
finally wait for the accept task to exit; the action trace contains a
dropClient action for every registered address and ends with the
waitAccept action, so Stop returns only after every registered client's
read pipeline and the accept task have exited. -/
theorem spec_C3_stop_sequence (t : TCP) (l : Nat) (h : t.listener = some l) :
    ∃ (t' : TCP) (acts : List StopAction),
      t.Stop = (t', Except.ok acts) ∧
      acts =
        [StopAction.setShuttingDown, StopAction.closeListener] ++
          (if t.userPools then [] else
            [StopAction.shutdownRecv, StopAction.shutdownSend]) ++
          [StopAction.snapshot (t.clients.map Prod.fst)] ++
          (t.clients.map Prod.fst).map StopAction.dropClient ++
          [StopAction.waitAccept] ∧
      t'.shuttingDown = true ∧ t'.listener = none ∧ t'.clients = [] ∧
      (t.userPools = false →
          t'.recv.isShutdown = true ∧ t'.send.isShutdown = true) ∧
      (t.userPools = true → t'.recv = t.recv ∧ t'.send = t.send) ∧
      (∀ a ∈ t.clients.map Prod.fst, StopAction.dropClient a ∈ acts) ∧
      acts.getLast? = some StopAction.waitAccept ∧
      ((StopAction.shutdownRecv ∈ acts ∧ StopAction.shutdownSend ∈ acts) ↔
        t.userPools = false) := by
  refine ⟨(t.Stop).1,
    [StopAction.setShuttingDown, StopAction.closeListener] ++
      (if t.userPools then [] else
        [StopAction.shutdownRecv, StopAction.shutdownSend]) ++
      [StopAction.snapshot (t.clients.map Prod.fst)] ++
      (t.clients.map Prod.fst).map StopAction.dropClient ++
      [StopAction.waitAccept],
    ?_, rfl, ?_, ?_, ?_, ?_, ?_, ?_, ?_, ?_⟩
  · rw [← stop_snd t l h]
  · rw [stop_fst t l h]
  · rw [stop_fst t l h]
  · rw [stop_fst t l h]
  · intro hu
    rw [stop_fst t l h]
    simp [hu]
  · intro hu
    rw [stop_fst t l h]
    simp [hu]
  · intro a ha
    exact List.mem_append.mpr
      (Or.inl (List.mem_append.mpr (Or.inr (List.mem_map_of_mem _ ha))))
  · exact List.getLast?_concat _
  · by_cases hu : t.userPools = true
    · simp [hu]
    · rw [Bool.not_eq_true] at hu
      simp [hu]

/-- The started one-client manager used to instantiate the Stop claims. -/
def tcpOneStarted : TCP := { tcpOne with listener := some 3 }

/-- Witness for C3: stopping a started manager with one registered
client and owned pools produces exactly the specified action trace. -/
theorem spec_C3_stop_sequence_witness :
    (tcpOneStarted.Stop).2 = Except.ok
      [StopAction.setShuttingDown, StopAction.closeListener,
       StopAction.shutdownRecv, StopAction.shutdownSend,
       StopAction.snapshot ["10.0.0.5:5555"],
       StopAction.dropClient ("10.0.0.5:5555"), StopAction.waitAccept] := by
  obtain ⟨t', acts, heq, hacts, -⟩ := spec_C3_stop_sequence tcpOneStarted 3 rfl
  rw [heq]
  simp only [hacts]
  simp [tcpOneStarted, tcpOne, tcpBase, client0, conn0, newClient]

/-! ### Rate-limit lemmas -/

theorem acceptConn_blocked (t : TCP) (traceID : String) (d now : Nat) (conn : Conn)
    (hrl : t.RateLimit = some d) (hdrop : t.dropConns = false)
    (hgt : t.lastAcceptedConnection + d > now) :
    t.acceptConn traceID now conn =
      { t := t, closedConn := true, registered := false } := by
  simp [TCP.acceptConn, hdrop, hrl, hgt]

theorem acceptConn_pass (t : TCP) (traceID : String) (d now : Nat) (conn : Conn)
    (hrl : t.RateLimit = some d) (hdrop : t.dropConns = false)
    (hle : t.lastAcceptedConnection + d ≤ now)
    (hfresh : lookupClient t.clients conn.remoteAddr = none) :
    t.acceptConn traceID now conn =
      { t := { t with
                 lastAcceptedConnection := now,
                 clients := (conn.remoteAddr,
                   newClient (traceID ++ "-" ++ conn.remoteAddr) conn) :: t.clients },
        closedConn := false, registered := true } := by
  simp [TCP.acceptConn, hdrop, hrl, TCP.join, hfresh,
        show ¬ t.lastAcceptedConnection + d > now by omega]

theorem acceptConn_pass_timestamp (t : TCP) (traceID : String) (d now : Nat)
    (conn : Conn) (hrl : t.RateLimit = some d) (hdrop : t.dropConns = false)
    (hle : t.lastAcceptedConnection + d ≤ now) :
    (t.acceptConn traceID now conn).t.lastAcceptedConnection = now ∧
    t.acceptConn traceID now conn =
      { t := ({ t with lastAcceptedConnection := now }.join traceID conn).t,
        closedConn :=
          ({ t with lastAcceptedConnection := now }.join traceID conn).closedConn,
        registered :=
          ({ t with lastAcceptedConnection := now }.join traceID conn).registered } := by
  constructor
  · cases hl : lookupClient t.clients conn.remoteAddr with
    | some c =>
        simp [TCP.acceptConn, hdrop, hrl, TCP.join, hl,
              show ¬ t.lastAcceptedConnection + d > now by omega]
    | none =>
        simp [TCP.acceptConn, hdrop, hrl, TCP.join, hl,
              show ¬ t.lastAcceptedConnection + d > now by omega]
  · simp [TCP.acceptConn, hdrop, hrl,
          show ¬ t.lastAcceptedConnection + d > now by omega]

/-- Claim C6: with a rate limiter of duration d configured and the
drop-flag clear, an accepted connection at time now is closed without
registration and without a timestamp update exactly when
lastAcceptedConnection + d is strictly after now; otherwise the
timestamp becomes now and the connection proceeds to registration.
Consequently two fresh-address attempts whose first passes the limiter
and which are spaced strictly less than d apart register exactly the
first — the second is closed and absent from the registry — while
attempts spaced at least d apart both register. -/
theorem spec_C6_rate_limit (t : TCP) (traceID : String) (d : Nat)
    (hrl : t.RateLimit = some d) (hdrop : t.dropConns = false) :
    (∀ now conn, t.lastAcceptedConnection + d > now →
        t.acceptConn traceID now conn =
          { t := t, closedConn := true, registered := false }) ∧
    (∀ now conn, t.lastAcceptedConnection + d ≤ now →
        (t.acceptConn traceID now conn).t.lastAcceptedConnection = now ∧
        t.acceptConn traceID now conn =
          { t := ({ t with lastAcceptedConnection := now }.join traceID conn).t,
            closedConn :=
              ({ t with lastAcceptedConnection := now }.join traceID conn).closedConn,
            registered :=
              ({ t with lastAcceptedConnection := now }.join traceID conn).registered }) ∧
    (∀ (t1 t2 : Nat) (c1 c2 : Conn),
        t.lastAcceptedConnection + d ≤ t1 →
        lookupClient t.clients c1.remoteAddr = none →
        lookupClient t.clients c2.remoteAddr = none →
        ¬ c1.remoteAddr = c2.remoteAddr →
        (t.acceptConn traceID t1 c1).registered = true ∧
        (t2 < t1 + d →
            (t.acceptConn traceID t1 c1).t.acceptConn traceID t2 c2 =
              { t := (t.acceptConn traceID t1 c1).t, closedConn := true,
                registered := false } ∧
            (lookupClient
                ((t.acceptConn traceID t1 c1).t.acceptConn traceID t2 c2).t.clients
                c1.remoteAddr).isSome = true ∧
            lookupClient
                ((t.acceptConn traceID t1 c1).t.acceptConn traceID t2 c2).t.clients
                c2.remoteAddr = none) ∧
        (t1 + d ≤ t2 →
            ((t.acceptConn traceID t1 c1).t.acceptConn traceID t2 c2).registered =
              true ∧
            (lookupClient
                ((t.acceptConn traceID t1 c1).t.acceptConn traceID t2 c2).t.clients
                c1.remoteAddr).isSome = true ∧
            (lookupClient
                ((t.acceptConn traceID t1 c1).t.acceptConn traceID t2 c2).t.clients
                c2.remoteAddr).isSome = true)) := by
  refine ⟨?_, ?_, ?_⟩
  · intro now conn hgt
    exact acceptConn_blocked t traceID d now conn hrl hdrop hgt
  · intro now conn hle
    exact acceptConn_pass_timestamp t traceID d now conn hrl hdrop hle
  · intro t1 t2 c1 c2 hle1 hf1 hf2 hne
    have h1 := acceptConn_pass t traceID d t1 c1 hrl hdrop hle1 hf1
    have hreg1 : (t.acceptConn traceID t1 c1).registered = true := by
      rw [h1]
    refine ⟨hreg1, ?_, ?_⟩
    · intro hlt
      have h2 := acceptConn_blocked (t.acceptConn traceID t1 c1).t traceID d t2 c2
        (by rw [h1]; exact hrl) (by rw [h1]; exact hdrop) (by rw [h1]; simpa using hlt)
      refine ⟨h2, ?_, ?_⟩
      · rw [h2, h1]
        simp [lookupClient]
      · rw [h2, h1]
        simp [lookupClient, hne, hf2]
    · intro hge
      have hf2' : lookupClient (t.acceptConn traceID t1 c1).t.clients
          c2.remoteAddr = none := by
        rw [h1]
        simp [lookupClient, hne, hf2]
      have h2 := acceptConn_pass (t.acceptConn traceID t1 c1).t traceID d t2 c2
        (by rw [h1]; exact hrl) (by rw [h1]; exact hdrop)
        (by rw [h1]; simpa using hge) hf2'
      refine ⟨by rw [h2], ?_, ?_⟩
      · rw [h2, h1]
        by_cases hc : c2.remoteAddr = c1.remoteAddr <;> simp [lookupClient, hc]
      · rw [h2]
        simp [lookupClient]

/-- A manager with a rate limiter fixed at duration 10. -/
def tcpRL : TCP := { tcpBase with RateLimit := some 10 }

/-- Witness for C6: attempts at times 100 and 105 (spacing 5 < 10)
register only the first; attempts at times 100 and 110 register both. -/
theorem spec_C6_rate_limit_witness :
    (tcpRL.acceptConn "tr" 100 conn0).registered = true ∧
    (tcpRL.acceptConn "tr" 100 conn0).t.acceptConn "tr" 105 conn1 =
      { t := (tcpRL.acceptConn "tr" 100 conn0).t, closedConn := true,
        registered := false } ∧
    ((tcpRL.acceptConn "tr" 100 conn0).t.acceptConn "tr" 110 conn1).registered =
      true := by
  have h := (spec_C6_rate_limit tcpRL "tr" 10 rfl rfl).2.2
  refine ⟨?_, ?_, ?_⟩
  · exact (h 100 105 conn0 conn1 (by decide) (by decide) (by decide) (by decide)).1
  · exact ((h 100 105 conn0 conn1 (by decide) (by decide) (by decide)
      (by decide)).2.1 (by decide)).1
  · exact ((h 100 110 conn0 conn1 (by decide) (by decide) (by decide)
      (by decide)).2.2 (by decide)).1

/-! ### Construction lemmas -/

theorem New_ok_state (traceID name : String) (cfg : Config) (t : TCP)
    (hnew : New traceID name cfg = Except.ok t) :
    t.userPools = cfg.RecvPool.isSome ∧ t.listener = none := by
  cases hv : cfg.Validate with
  | error e => simp [New, hv] at hnew
  | ok u =>
      simp [New, hv] at hnew
      constructor
      · rw [← hnew]
      · rw [← hnew]

theorem Start_ok_state (t : TCP) (traceID : String) (l : Nat) (t' : TCP)
    (h : t.Start traceID (Except.ok l) = StartResult.ok t') :
    t' = { t with listener := some l, acceptTasks := t.acceptTasks + 1 } := by
  by_cases hl : t.listener.isSome = true
  · simp [TCP.Start, hl] at h
  · simp [TCP.Start, hl] at h
    exact h.symm

/-- Claim C10 (amended): for every configuration accepted by New, Stop
shuts both worker pools down if and only if the configuration's receive
pool was nil at construction; a configuration supplying a send pool
without a receive pool is rejected at validation as an inconsistent
pool-ownership configuration and never reaches Stop. -/
theorem spec_C10_pool_ownership (traceID tid2 name : String) (cfg : Config)
    (t t' t'' : TCP) (l : Nat) (acts : List StopAction)
    (hnew : New traceID name cfg = Except.ok t)
    (hstart : t.Start tid2 (Except.ok l) = StartResult.ok t')
    (hstop : t'.Stop = (t'', Except.ok acts)) :
    ((StopAction.shutdownRecv ∈ acts ∧ StopAction.shutdownSend ∈ acts) ↔
      cfg.RecvPool = none) := by
  obtain ⟨hup, hln⟩ := New_ok_state traceID name cfg t hnew
  have ht' := Start_ok_state t tid2 l t' hstart
  have hl' : t'.listener = some l := by rw [ht']
  have hacts : (Except.ok
      ([StopAction.setShuttingDown, StopAction.closeListener] ++
       (if t'.userPools then [] else
         [StopAction.shutdownRecv, StopAction.shutdownSend]) ++
       [StopAction.snapshot (t'.clients.map Prod.fst)] ++
       (t'.clients.map Prod.fst).map StopAction.dropClient ++
       [StopAction.waitAccept]) : Except String (List StopAction)) =
      Except.ok acts := by
    rw [← stop_snd t' l hl', hstop]
  rw [Except.ok.injEq] at hacts
  have hup' : t'.userPools = cfg.RecvPool.isSome := by
    rw [ht']
    exact hup
  rw [← hacts, hup']
  cases hp : cfg.RecvPool with
  | none => simp
  | some p => simp

/-- A configuration supplying a send pool but no receive pool. -/
def cfgMixed : Config :=
  { NetType := "tcp", Addr := "127.0.0.1", ConnHandler := true,
    ReqHandler := true, RespHandler := true,
    RecvMinPoolSize := 1, RecvMaxPoolSize := 2,
    SendMinPoolSize := 1, SendMaxPoolSize := 2,
    RecvPool := none, SendPool := some freshPool, RateLimit := none }

/-- Counterexample to C10 as stated: a caller-supplied send pool
combined with a nil receive pool never reaches Stop, because New
rejects the configuration as an inconsistent pool-ownership
configuration. -/
theorem spec_C10_mixed_counterexample :
    New ("tr") ("mgr") cfgMixed =
      Except.error ("Invalid Pool Configuration") := by
  rfl

/-- A fully owned-pool configuration accepted by New. -/
def cfgOwned : Config :=
  { NetType := "tcp", Addr := "127.0.0.1", ConnHandler := true,
    ReqHandler := true, RespHandler := true,
    RecvMinPoolSize := 1, RecvMaxPoolSize := 2,
    SendMinPoolSize := 1, SendMaxPoolSize := 2,
    RecvPool := none, SendPool := none, RateLimit := none }

/-- The manager New builds from cfgOwned. -/
def tcpNew : TCP :=
  { Name := "mgr", netType := "tcp", ipAddress := "127.0.0.1", port := 0,
    listener := none, clients := [], recv := freshPool, send := freshPool,
    userPools := false, acceptTasks := 0, dropConns := false,
    shuttingDown := false, lastAcceptedConnection := 0, RateLimit := none }

/-- The manager after a successful Start bound listener 5. -/
def tcpStarted : TCP := { tcpNew with listener := some 5, acceptTasks := 1 }

/-- The manager after the subsequent Stop. -/
def tcpStopped : TCP :=
  { tcpStarted with
      shuttingDown := true,
      listener := none,
      acceptTasks := 0,
      recv := { submitted := [], isShutdown := true },
      send := { submitted := [], isShutdown := true } }

/-- The Stop action trace for tcpStarted. -/
def actsOwned : List StopAction :=
  [StopAction.setShuttingDown, StopAction.closeListener,
   StopAction.shutdownRecv, StopAction.shutdownSend,
   StopAction.snapshot [], StopAction.waitAccept]

/-- Witness for C10 at the owned-pool configuration: both shutdown
actions appear in the Stop trace exactly because the receive pool was
nil at construction. -/
theorem spec_C10_pool_ownership_witness :
    ((StopAction.shutdownRecv ∈ actsOwned ∧ StopAction.shutdownSend ∈ actsOwned) ↔
      cfgOwned.RecvPool = none) :=
  spec_C10_pool_ownership ("tr") ("tr2") ("mgr") cfgOwned tcpNew tcpStarted
    tcpStopped 5 actsOwned (by rfl) (by rfl) (by rfl)

/-- The one-client manager after its successful Stop. -/
def tcpOneStopped : TCP :=
  { tcpBase with
      shuttingDown := true,
      recv := { submitted := [], isShutdown := true },
      send := { submitted := [], isShutdown := true } }

/-- The Stop action trace for tcpOneStarted. -/
def actsOne : List StopAction :=
  [StopAction.setShuttingDown, StopAction.closeListener,
   StopAction.shutdownRecv, StopAction.shutdownSend,
   StopAction.snapshot ["10.0.0.5:5555"],
   StopAction.dropClient ("10.0.0.5:5555"), StopAction.waitAccept]

/-- Witness for C8: a never-started manager and a freshly stopped
manager both reject Stop without side effects. -/
theorem spec_C8_stop_misuse_witness :
    tcpBase.Stop = (tcpBase, Except.error ("This TCP has already been stopped")) ∧
    tcpOneStopped.Stop =
      (tcpOneStopped, Except.error ("This TCP has already been stopped")) := by
  constructor
  · exact (spec_C8_stop_misuse tcpBase tcpBase tcpBase 0 []).1 rfl
  · exact (spec_C8_stop_misuse tcpOneStopped tcpOneStarted tcpOneStopped 3
      actsOne).2 rfl (by rfl)
